import Mathlib

/-!
Verification development for the BLE-MIDI bridge (`ble_midi_client.py`).

The Python source is shallowly embedded: bytes are `Nat` (values 0–255),
notification payloads are `List Nat`, and the stateful pieces of the
connection supervisor are explicit record-passing functions.  Each
definition is translated from the corresponding Python function and is
named after it where Lean allows.
-/

namespace BleMidi

/-- Structured MIDI event, as constructed by `process_midi_message`
(the `mido.Message` values `note_off`, `note_on`, `control_change`,
`pitchwheel`). -/
inductive MidiEvent where
  | NoteOff (note velocity : Nat)
  | NoteOn (note velocity : Nat)
  | ControlChange (controller value : Nat)
  | PitchBend (value14 : Nat)
  deriving DecidableEq, Repr

/-- Embedding of `BleMidiBridge.process_midi_message` (lines 157–190).
The Python code guards each branch with `len(data) >= 3` and dispatches on
`data[0] & 0xF0`; bytes past index 2 are never read.  Each branch then
constructs a `mido.Message`, whose constructor validates its fields —
data bytes must lie in 0–127 and a `pitchwheel` pitch in −8192..8191 —
and raises `ValueError` otherwise; that exception is caught by the
`except` at line 189, so the message is dropped without being sent or
reported.  The inner range guards model this validation (the computed
pitch value is a `Nat`, so only its upper bound 8191 can fail).  The
result is the event handed to `midi_manager.send_message` paired with the
activity text handed to `update_activity`; `none` means no event is
constructed (the sequence is dropped). -/
def process_midi_message (data : List Nat) : Option (MidiEvent × String) :=
  match data with
  | b0 :: b1 :: b2 :: _ =>
    let messageType := b0 &&& 0xF0
    if messageType = 0x80 then
      if b1 ≤ 127 ∧ b2 ≤ 127 then
        some (.NoteOff b1 b2, "Note Off: 音符 " ++ toString b1)
      else none
    else if messageType = 0x90 then
      if b1 ≤ 127 ∧ b2 ≤ 127 then
        if b2 > 0 then
          some (.NoteOn b1 b2,
            "Note On: 音符 " ++ toString b1 ++ " (力度: " ++ toString b2 ++ ")")
        else
          some (.NoteOn b1 b2, "Note Off: 音符 " ++ toString b1)
      else none
    else if messageType = 0xB0 then
      if b1 ≤ 127 ∧ b2 ≤ 127 then
        some (.ControlChange b1 b2, "控制改变: " ++ toString b1 ++ " = " ++ toString b2)
      else none
    else if messageType = 0xE0 then
      if (b2 <<< 7) ||| b1 ≤ 8191 then
        some (.PitchBend ((b2 <<< 7) ||| b1), "弯音: " ++ toString ((b2 <<< 7) ||| b1))
      else none
    else
      none
  | _ => none

/-- The translation part of `process_midi_message`: the MIDI event
constructed from a message byte sequence, if any. -/
def translate (data : List Nat) : Option MidiEvent :=
  Option.map Prod.fst (process_midi_message data)

/-- Embedding of the byte loop of `BleMidiBridge.midi_data_handler`
(lines 142–152).  `acc` is the local `midi_data` buffer; the returned list
collects, in order, every byte sequence passed to `process_midi_message`
(including the end-of-input flush at lines 151–152). -/
def reassembleLoop (acc : List Nat) : List Nat → List (List Nat)
  | [] => if acc.isEmpty then [] else [acc]
  | b :: rest =>
    if 0x80 ≤ b ∧ b ≤ 0xEF then
      (if acc.isEmpty then [] else [acc]) ++ reassembleLoop [b] rest
    else if ¬ acc.isEmpty ∧ b < 0x80 then
      reassembleLoop (acc ++ [b]) rest
    else
      reassembleLoop acc rest

/-- Embedding of `BleMidiBridge.midi_data_handler` (lines 135–155): the
sequence of message byte sequences emitted for one notification payload.
Line 138 returns immediately when the payload is shorter than 3 bytes;
otherwise the byte loop runs with an empty buffer.  The local `midi_data`
buffer does not survive the call: each payload is processed from a fresh
empty buffer. -/
def midi_data_handler (data : List Nat) : List (List Nat) :=
  if data.length < 3 then [] else reassembleLoop [] data

/-- Modelled from the spec (for comparison with `midi_data_handler`):
pure status-byte delimiting as the spec describes it, with no length
condition.  One step folds a byte into the state `(emitted, buffer)`:
a byte in 0x80–0xEF flushes any accumulated message and starts a new one,
a byte below 0x80 is appended when a message is accumulating and discarded
otherwise, and any other byte is skipped. -/
def specDelimitStep (s : List (List Nat) × List Nat) (b : Nat) :
    List (List Nat) × List Nat :=
  if 0x80 ≤ b ∧ b ≤ 0xEF then
    (s.1 ++ (if s.2.isEmpty then [] else [s.2]), [b])
  else if b < 0x80 then
    if s.2.isEmpty then s else (s.1, s.2 ++ [b])
  else
    s

/-- Modelled from the spec: delimit a chunk purely at status-byte
boundaries, emitting any accumulated message at end of input. -/
def specDelimit (data : List Nat) : List (List Nat) :=
  let s := List.foldl specDelimitStep ([], []) data
  s.1 ++ (if s.2.isEmpty then [] else [s.2])

/-- A BLE device as returned by `BleakScanner.discover`: `name` may be
absent (`None` in Python), `address` is the device address. -/
structure Device where
  name : Option String
  address : String
  deriving DecidableEq, Repr

/-- Bool-valued substring check (Python's `needle in hay` on strings),
over character lists. -/
def containsSub (needle : List Char) : List Char → Bool
  | [] => needle.isEmpty
  | c :: rest => needle.isPrefixOf (c :: rest) || containsSub needle rest

/-- Python's `str.lower()`, modelled charwise on the character list. -/
def lowerChars (s : String) : List Char :=
  s.data.map Char.toLower

/-- The device-match test of `connect_to_device` line 103:
`d.name and self.device_name.lower() in d.name.lower()` (a `None` or empty
name is falsy in Python). -/
def deviceMatches (deviceName : String) (d : Device) : Bool :=
  match d.name with
  | some n => !n.isEmpty && containsSub (lowerChars deviceName) (lowerChars n)
  | none => false

/-- Outcome of one `BleakScanner.discover` call inside the scan loop:
either a device list or a raised exception (caught at line 107). -/
inductive ScanOutcome where
  | devices (ds : List Device)
  | scanFail (msg : String)

/-- Environment of transport outcomes for one `connect_to_device` call:
the successive `discover` outcomes, whether `client.connect()` succeeds
(with the exception text otherwise), and the result of
`midi_manager.open_port`. -/
structure ConnectEnv where
  scans : List ScanOutcome
  connectOk : Bool
  connectErr : String
  portOpenOk : Bool

/-- The scan loop of `connect_to_device` (lines 97–113): up to the given
outcomes, report each attempt, stop at the first matching device.
Returns the status strings reported and the device found, if any. -/
def scanLoop (deviceName : String) (attempt : Nat) :
    List ScanOutcome → List String × Option Device
  | [] => ([], none)
  | o :: rest =>
    let hdr := "扫描设备中... (尝试 " ++ toString (attempt + 1) ++ "/3)"
    match o with
    | .scanFail m =>
      let r := scanLoop deviceName (attempt + 1) rest
      (hdr :: ("扫描错误: " ++ m) :: r.1, r.2)
    | .devices ds =>
      match ds.find? (fun d => deviceMatches deviceName d) with
      | some d =>
        ([hdr, "找到设备: " ++ d.name.getD "" ++ " (" ++ d.address ++ ")"], some d)
      | none =>
        let r := scanLoop deviceName (attempt + 1) rest
        (hdr :: r.1, r.2)

/-- Embedding of `BleMidiBridge.connect_to_device` (lines 92–133):
scan for the target (at most 3 attempts), then connect and — when a MIDI
port name is configured (truthy) — try to open the MIDI port.  Returns the
status strings reported and the established session (`none` on failure).
A failed `open_port` only adds a status report (lines 126–128); the
session is still returned (line 130). -/
def connect_to_device (deviceName : String) (midiPortName : Option String)
    (env : ConnectEnv) : List String × Option Device :=
  match scanLoop deviceName 0 (env.scans.take 3) with
  | (ss, none) => (ss ++ ["❌ 未找到设备: " ++ deviceName], none)
  | (ss, some d) =>
    if env.connectOk then
      (ss ++ ["✅ 已连接: " ++ d.name.getD ""] ++
        (match midiPortName with
         | some p => if !p.isEmpty && !env.portOpenOk
                     then ["❌ 无法打开MIDI端口，但BLE连接已建立"] else []
         | none => []), some d)
    else
      (ss ++ ["❌ 连接失败: " ++ env.connectErr], none)

/-- Lines 196–205 of `run`: when `connect_to_device` returned a session,
notifications are started and streaming begins with a status report;
when it returned `None` the loop body takes the retry path instead. -/
def runStartStreaming (cr : List String × Option Device) : Bool × List String :=
  match cr.2 with
  | some _ => (true, ["🎹 MIDI转发已启动，开始接收数据..."])
  | none => (false, [])

/-- The mutable state of a `BleMidiBridge` relevant to `run`/`stop`:
`should_reconnect` and `auto_reconnect` are the instance flags,
`is_connected` is the instance flag of the same name, `hasClient` and
`clientConnected` model `self.client` and `client.is_connected`
(the transport's view), `portOpen` models the `MidiPortManager`'s open
port, `scan_interval` the configured retry delay. -/
structure Bridge where
  should_reconnect : Bool
  auto_reconnect : Bool
  is_connected : Bool
  hasClient : Bool
  clientConnected : Bool
  portOpen : Bool
  scan_interval : Nat
  deriving DecidableEq, Repr

/-- Embedding of `BleMidiBridge.stop` (lines 227–232): clear
`should_reconnect`, schedule a `client.disconnect()` task when a client
exists and is connected (`asyncio.create_task` — the disconnect has not
run yet when `stop` returns), and close the MIDI port.  The second
component counts the `disconnect` invocations scheduled by this call. -/
def stop (b : Bridge) : Bridge × Nat :=
  ({ b with should_reconnect := false, portOpen := false },
   if b.hasClient && b.clientConnected then 1 else 0)

/-- Completion of a `client.disconnect()` task scheduled by `stop`:
the transport connection goes down. -/
def runDisconnectTask (b : Bridge) : Bridge :=
  { b with clientConnected := false }

/-- Lines 211–216 of `run`, after the inner streaming wait exits:
if the client is still connected, `stop_notify` and `disconnect` are
awaited (one more `disconnect` invocation); then `is_connected` is
cleared and the disconnect status is reported.  Returns the new state,
the number of `disconnect` invocations made here, and the statuses. -/
def runTeardown (b : Bridge) : Bridge × Nat × List String :=
  if b.clientConnected then
    ({ b with clientConnected := false, is_connected := false }, 1, ["⚠️ 连接已断开"])
  else
    ({ b with is_connected := false }, 0, ["⚠️ 连接已断开"])

/-- `stop()` called while `run` sits in the inner streaming wait
(lines 208–209): `stop` clears `should_reconnect`, so the inner `while`
exits and `run` performs its teardown.  `taskBeforeTeardown` is the
scheduling choice of the event loop: whether the `disconnect` task created
by `stop` completes before `run` evaluates `client.is_connected` at
line 211.  Returns the final state and the total number of
`client.disconnect()` invocations. -/
def stopWhileStreamingScenario (b : Bridge) (taskBeforeTeardown : Bool) :
    Bridge × Nat :=
  let s := stop b
  if taskBeforeTeardown then
    let t := runTeardown (runDisconnectTask s.1)
    (t.1, s.2 + t.2.1)
  else
    let t := runTeardown s.1
    (runDisconnectTask t.1, s.2 + t.2.1)

/-- Lines 196–201 of `run` when `connect_to_device` returned `None`:
when `auto_reconnect` is set, a retry status is reported and the backoff
sleep happens; either way the body ends in `continue` and the `while`
condition at line 194 is re-checked.  Returns the (unchanged) state, the
statuses reported, and whether the loop runs another scan/connect
iteration. -/
def runIterNoClient (b : Bridge) : Bridge × List String × Bool :=
  (b,
   if b.auto_reconnect then [toString b.scan_interval ++ "秒后重试连接..."] else [],
   b.should_reconnect)

/-- Lines 223–225 of `run` plus the `while` re-check at line 194: after a
loop body ends (e.g. after a disconnection), the reconnect delay is slept
only when both flags are set, and the loop runs again iff
`should_reconnect` still holds. -/
def runLoopBottom (b : Bridge) : List String × Bool :=
  (if b.should_reconnect && b.auto_reconnect
   then [toString b.scan_interval ++ "秒后重新连接..."] else [],
   b.should_reconnect)

/-! ### Claims about the translator (`process_midi_message`) -/

/-- Claim C3, evaluated at the failing input: the claim says every 3-byte
sequence with high nibble 0xE0 translates to a `PitchBend` built from
bytes 1 and 2, but the code drops every pitch bend whose 14-bit value
exceeds 8191 — `mido`'s `pitchwheel` pitch range is −8192..8191 and the
code passes the unsigned value unshifted, so
`Message('pitchwheel', pitch=8192)` raises `ValueError`, caught at
line 189.  `[0xE0, 0, 64]` (the pitch-wheel centre, value 8192) yields no
event, while the neighbouring value 8191 and the other three message
types behave exactly as the claim states. -/
theorem c3_pitch_bend_center_dropped :
    translate [0xE0, 0, 64] = none ∧
    translate [0xE0, 127, 63] = some (.PitchBend 8191) ∧
    translate [0x80, 60, 100] = some (.NoteOff 60 100) ∧
    translate [0x90, 60, 100] = some (.NoteOn 60 100) ∧
    translate [0xB0, 7, 127] = some (.ControlChange 7 127) ∧
    translate [0x40, 1, 2] = none ∧
    translate [0xE0, 0] = none := by
  decide

/-- Counterexample to claim C6 as stated: a 4-byte sequence with a
recognized leading status nibble is translated (from its first three
bytes), not dropped. -/
theorem c6_counterexample :
    [0x90, 60, 100, 50].length ≠ 3 ∧
    translate [0x90, 60, 100, 50] = some (.NoteOn 60 100) := by
  exact ⟨by decide, rfl⟩

/-- Claim C6 as amended: an event is constructed only from a sequence of
length at least 3 (shorter sequences are dropped), and a longer sequence
is translated exactly as its first three bytes — the excess bytes are
ignored, not grounds for dropping. -/
theorem c6_translate_length_policy :
    (∀ b0 b1 b2 : Nat, ∀ rest : List Nat,
      translate (b0 :: b1 :: b2 :: rest) = translate [b0, b1, b2]) ∧
    (∀ data : List Nat, data.length < 3 → translate data = none) := by
  constructor
  · intro b0 b1 b2 rest
    simp [translate, process_midi_message]
  · intro data hlen
    rcases data with _ | ⟨a, _ | ⟨b, _ | ⟨c, t⟩⟩⟩
    · rfl
    · rfl
    · rfl
    · simp at hlen; omega

/-- Witness for the amended C6 at concrete inputs. -/
theorem c6_witness :
    translate [0x90, 60, 100, 50] = translate [0x90, 60, 100] ∧
    translate [0x90, 60] = none :=
  ⟨c6_translate_length_policy.1 0x90 60 100 [50],
   c6_translate_length_policy.2 [0x90, 60] (by decide)⟩

/-- Claim C7, evaluated at the failing input: the claim mandates that
pitch-bend reconstruction be onto the full 14-bit domain with
`(127,127) ↦ 16383` exactly, but the code drops every pitch bend whose
reconstructed value exceeds 8191 (the whole upper half of the domain):
`mido`'s signed pitch range is −8192..8191 and the code passes the
unsigned value unshifted, so the `Message` constructor raises
`ValueError` and line 189 swallows the message.  `(0,0) ↦ 0` still holds,
and `(127,63) ↦ 8191` is the largest value that survives. -/
theorem c7_pitch_bend_upper_half_dropped :
    translate [0xE0, 127, 127] = none ∧
    translate [0xE0, 0, 0] = some (.PitchBend 0) ∧
    translate [0xE0, 127, 63] = some (.PitchBend 8191) := by
  decide

/-- Claim C9: a Note On message with velocity 0 still yields a `NoteOn`
event with velocity 0 (the variant sent to the sink is unchanged), while
the activity text for this case uses the "Note Off" phrasing; a positive
velocity uses the normal "Note On" phrasing. -/
theorem c9_note_on_zero_velocity (b0 n : Nat) (h : b0 &&& 0xF0 = 0x90)
    (hn : n < 128) :
    process_midi_message [b0, n, 0] =
      some (.NoteOn n 0, "Note Off: 音符 " ++ toString n) ∧
    (∀ v : Nat, 0 < v → v < 128 →
      process_midi_message [b0, n, v] =
        some (.NoteOn n v,
          "Note On: 音符 " ++ toString n ++ " (力度: " ++ toString v ++ ")")) := by
  have hn' : n ≤ 127 := by omega
  constructor
  · simp [process_midi_message, h, hn']
  · intro v hv1 hv2
    have hv' : v ≤ 127 := by omega
    simp [process_midi_message, h, hn', hv', hv1]

/-- Witness for C9 at a concrete input. -/
theorem c9_witness :
    process_midi_message [0x90, 60, 0] =
      some (.NoteOn 60 0, "Note Off: 音符 " ++ toString 60) ∧
    process_midi_message [0x90, 60, 100] =
      some (.NoteOn 60 100,
        "Note On: 音符 " ++ toString 60 ++ " (力度: " ++ toString 100 ++ ")") :=
  ⟨(c9_note_on_zero_velocity 0x90 60 (by decide) (by decide)).1,
   (c9_note_on_zero_velocity 0x90 60 (by decide) (by decide)).2 100
     (by decide) (by decide)⟩

/-! ### Claims about the reassembler (`midi_data_handler`) -/

/-- The fold form of spec-style delimiting agrees with the source's byte
loop, for any starting buffer and already-emitted output. -/
theorem specDelimitStep_foldl (data : List Nat) :
    ∀ (out : List (List Nat)) (acc : List Nat),
      (List.foldl specDelimitStep (out, acc) data).1 ++
        (if (List.foldl specDelimitStep (out, acc) data).2.isEmpty then []
         else [(List.foldl specDelimitStep (out, acc) data).2]) =
      out ++ reassembleLoop acc data := by
  induction data with
  | nil =>
    intro out acc
    simp [reassembleLoop]
  | cons b rest ih =>
    intro out acc
    by_cases h1 : 0x80 ≤ b ∧ b ≤ 0xEF
    · have step : specDelimitStep (out, acc) b =
          (out ++ (if acc.isEmpty then [] else [acc]), [b]) := by
        simp [specDelimitStep, h1]
      rw [List.foldl_cons, step, ih]
      have loopEq : reassembleLoop acc (b :: rest) =
          (if acc.isEmpty then [] else [acc]) ++ reassembleLoop [b] rest := by
        simp [reassembleLoop, h1]
      rw [loopEq, List.append_assoc]
    · by_cases h2 : b < 0x80
      · by_cases h3 : acc.isEmpty
        · have step : specDelimitStep (out, acc) b = (out, acc) := by
            simp [specDelimitStep, h1, h2, h3]
          rw [List.foldl_cons, step, ih]
          have loopEq : reassembleLoop acc (b :: rest) =
              reassembleLoop acc rest := by
            simp [reassembleLoop, h1, h3]
          rw [loopEq]
        · have step : specDelimitStep (out, acc) b = (out, acc ++ [b]) := by
            simp [specDelimitStep, h1, h2, h3]
          rw [List.foldl_cons, step, ih]
          have loopEq : reassembleLoop acc (b :: rest) =
              reassembleLoop (acc ++ [b]) rest := by
            simp [reassembleLoop, h1, h2, h3]
          rw [loopEq]
      · have step : specDelimitStep (out, acc) b = (out, acc) := by
          simp [specDelimitStep, h1, h2]
        rw [List.foldl_cons, step, ih]
        have loopEq : reassembleLoop acc (b :: rest) =
            reassembleLoop acc rest := by
          simp [reassembleLoop, h1, h2]
        rw [loopEq]

/-- Counterexample to claim C4 as stated: the chunk `[0x90, 60]` emits
nothing — the handler drops any payload shorter than 3 bytes at line 138
before the status-byte delimiting loop runs — while pure status-byte
delimiting would emit `[0x90, 60]`. -/
theorem c4_counterexample :
    midi_data_handler [0x90, 60] = [] ∧
    specDelimit [0x90, 60] = [[0x90, 60]] := by
  constructor <;> rfl

/-- Claim C4 as amended: for every chunk of length at least 3, the
handler's output is determined purely by status-byte delimiting (the
spec's rule set: 0x80–0xEF flushes and restarts, bytes below 0x80 append
when accumulating and are discarded otherwise, the final accumulation is
emitted); chunks shorter than 3 bytes are dropped whole. -/
theorem c4_delimit_policy (data : List Nat) (h : 3 ≤ data.length) :
    midi_data_handler data = specDelimit data := by
  unfold midi_data_handler specDelimit
  rw [if_neg (by omega)]
  simpa using (specDelimitStep_foldl data [] []).symm

/-- Witness for the amended C4 at a concrete input. -/
theorem c4_witness :
    midi_data_handler [0x90, 60, 0xB0, 7, 127] =
      specDelimit [0x90, 60, 0xB0, 7, 127] :=
  c4_delimit_policy [0x90, 60, 0xB0, 7, 127] (by decide)

/-- Claim C10: a byte in 0xF0–0xFF is skipped entirely by the reassembly
loop — removing all such bytes from the input leaves the loop's output
unchanged, so bytes accumulated before such a byte and data bytes after
it end up in the same emitted message (concrete instance:
`[0x90, 60, 0xF8, 100]` emits the single message `[0x90, 60, 100]`). -/
theorem c10_system_realtime_skipped :
    (∀ (acc data : List Nat),
      reassembleLoop acc data =
        reassembleLoop acc (data.filter (fun b => decide (b < 0xF0)))) ∧
    reassembleLoop [] [0x90, 60, 0xF8, 100] = [[0x90, 60, 100]] := by
  constructor
  · intro acc data
    induction data generalizing acc with
    | nil => rfl
    | cons b rest ih =>
      by_cases h1 : 0x80 ≤ b ∧ b ≤ 0xEF
      · rw [List.filter_cons_of_pos (p := fun x => decide (x < 0xF0))
          (by simp only [decide_eq_true_eq]; omega)]
        simp [reassembleLoop, h1, ih]
      · by_cases h2 : b < 0x80
        · rw [List.filter_cons_of_pos (p := fun x => decide (x < 0xF0))
            (by simp only [decide_eq_true_eq]; omega)]
          by_cases h3 : acc.isEmpty
          · simp [reassembleLoop, h1, h3, ih]
          · simp [reassembleLoop, h1, h2, h3, ih]
        · rw [List.filter_cons_of_neg (p := fun x => decide (x < 0xF0))
            (by simp only [decide_eq_true_eq]; omega)]
          rw [reassembleLoop, if_neg h1, if_neg (by tauto)]
          exact ih acc
  · rfl

/-- Every byte sequence the loop hands to `process_midi_message` is a
nonempty subsequence of the starting buffer followed by the input bytes. -/
theorem reassembleLoop_mem_sublist (data : List Nat) :
    ∀ (acc m : List Nat), m ∈ reassembleLoop acc data →
      m.Sublist (acc ++ data) ∧ m ≠ [] := by
  induction data with
  | nil =>
    intro acc m hm
    by_cases h3 : acc.isEmpty
    · simp [reassembleLoop, h3] at hm
    · rw [reassembleLoop, if_neg h3, List.mem_singleton] at hm
      subst hm
      exact ⟨by simp, by simpa [List.isEmpty_iff] using h3⟩
  | cons b rest ih =>
    intro acc m hm
    by_cases h1 : 0x80 ≤ b ∧ b ≤ 0xEF
    · rw [reassembleLoop, if_pos h1] at hm
      rcases List.mem_append.1 hm with hml | hmr
      · by_cases h3 : acc.isEmpty
        · simp [h3] at hml
        · rw [if_neg h3, List.mem_singleton] at hml
          refine ⟨?_, ?_⟩
          · rw [hml]; exact List.sublist_append_left acc (b :: rest)
          · rw [hml]; simpa [List.isEmpty_iff] using h3
      · have hr := ih [b] m hmr
        refine ⟨hr.1.trans ?_, hr.2⟩
        exact List.sublist_append_right acc (b :: rest)
    · by_cases h2 : ¬acc.isEmpty ∧ b < 0x80
      · rw [reassembleLoop, if_neg h1, if_pos h2] at hm
        have hr := ih (acc ++ [b]) m hm
        refine ⟨?_, hr.2⟩
        have heq : (acc ++ [b]) ++ rest = acc ++ b :: rest := by simp
        rw [heq] at hr
        exact hr.1
      · rw [reassembleLoop, if_neg h1, if_neg h2] at hm
        have hr := ih acc m hm
        refine ⟨hr.1.trans ?_, hr.2⟩
        exact (List.sublist_cons_self b rest).append_left acc

/-- Counterexample to claim C2 as stated: the message `[0x90, 60, 100]`
split across two consecutive payloads (status byte and first data byte in
one chunk, the last data byte in the next) is never emitted complete —
the handler's buffer is local to each call, so nothing carries over. -/
theorem c2_counterexample :
    [0x90, 60, 100] ∉ midi_data_handler [0x90, 60] ++
      midi_data_handler [100, 0, 0] ∧
    [0x90, 60, 100] ∉ midi_data_handler [0, 0, 0x90, 60] ++
      midi_data_handler [100, 0, 0] := by
  constructor <;> decide

/-- Claim C2 as amended: the reassembler keeps no accumulation state
across payload chunks — every emitted message is a nonempty subsequence
of the single chunk during whose processing it was emitted, so a message
split across two consecutive payloads is never emitted complete. -/
theorem c2_no_cross_chunk_state (data m : List Nat)
    (h : m ∈ midi_data_handler data) : m.Sublist data ∧ m ≠ [] := by
  unfold midi_data_handler at h
  by_cases hl : data.length < 3
  · rw [if_pos hl] at h
    simp at h
  · rw [if_neg hl] at h
    simpa using reassembleLoop_mem_sublist data [] m h

/-- Witness for the amended C2 at a concrete input. -/
theorem c2_witness :
    [0x90, 1, 2].Sublist [5, 10, 0x90, 1, 2] ∧ [0x90, 1, 2] ≠ [] :=
  c2_no_cross_chunk_state [5, 10, 0x90, 1, 2] [0x90, 1, 2] (by decide)

/-! ### Claims about the connection supervisor (`run`, `stop`,
`connect_to_device`) -/

/-- Claim C1, evaluated at the failing input: a bridge with
`should_reconnect = True` and `auto_reconnect = False` whose
`connect_to_device` call returned `None`.  The loop body's `continue`
re-enters the `while` with `should_reconnect` unchanged, so the
scan/connect cycle is retried (third component `true`) and no status is
reported — the run loop does not terminate; likewise after a
disconnection the bottom of the loop re-enters the cycle.  This
contradicts the claim that with auto-reconnect disabled such failures
lead to termination in `Stopped` after a status report. -/
theorem c1_disabled_reconnect_still_retries :
    (runIterNoClient ⟨true, false, false, false, false, false, 5⟩).2.2 = true ∧
    (runIterNoClient ⟨true, false, false, false, false, false, 5⟩).2.1 = [] ∧
    (runLoopBottom ⟨true, false, false, false, false, false, 5⟩).2 = true ∧
    (runLoopBottom ⟨true, false, false, false, false, false, 5⟩).1 = [] := by
  refine ⟨rfl, rfl, rfl, rfl⟩

/-- A bridge sitting in the inner streaming wait of `run`: flags set, a
connected client, an open MIDI port. -/
def streamingBridge : Bridge :=
  ⟨true, true, true, true, true, true, 5⟩

/-- Counterexample to claim C5 as stated: when the `disconnect` task
created by `stop` has not yet run by the time the run loop evaluates
`client.is_connected` (line 211), the run loop disconnects as well —
`Session.disconnect()` is invoked twice, not exactly once. -/
theorem c5_counterexample :
    (stopWhileStreamingScenario streamingBridge false).2 = 2 ∧
    (stopWhileStreamingScenario streamingBridge false).2 ≠ 1 := by
  refine ⟨rfl, by decide⟩

/-- Claim C5 as amended: calling `stop()` while streaming makes the run
loop terminate (the `while` re-check fails, so the state reaches the
stopped condition) with the session's `disconnect` invoked at least once
and at most twice — once by `stop` itself, and once more by the run
loop's teardown if the scheduled disconnect task has not completed when
`client.is_connected` is checked; a second `stop()` call leaves the
bridge state unchanged (idempotence on state). -/
theorem c5_stop_reaches_stopped (b : Bridge) (t : Bool)
    (hc : b.hasClient = true) (hcc : b.clientConnected = true) :
    1 ≤ (stopWhileStreamingScenario b t).2 ∧
    (stopWhileStreamingScenario b t).2 ≤ 2 ∧
    (stopWhileStreamingScenario b t).1.should_reconnect = false ∧
    (stopWhileStreamingScenario b t).1.clientConnected = false ∧
    (runLoopBottom (stopWhileStreamingScenario b t).1).2 = false ∧
    (stop (stop b).1).1 = (stop b).1 := by
  cases t <;>
    simp [stopWhileStreamingScenario, stop, runDisconnectTask, runTeardown,
      runLoopBottom, hc, hcc]

/-- Witness for the amended C5 at a concrete input. -/
theorem c5_witness :
    1 ≤ (stopWhileStreamingScenario streamingBridge true).2 ∧
    (stopWhileStreamingScenario streamingBridge true).2 ≤ 2 ∧
    (stopWhileStreamingScenario streamingBridge true).1.should_reconnect = false ∧
    (stopWhileStreamingScenario streamingBridge true).1.clientConnected = false ∧
    (runLoopBottom (stopWhileStreamingScenario streamingBridge true).1).2 = false ∧
    (stop (stop streamingBridge).1).1 = (stop streamingBridge).1 :=
  c5_stop_reaches_stopped streamingBridge true rfl rfl

/-- Claim C8: when the transport connection succeeds but the MIDI output
port cannot be opened, the failure is reported via the status sink, yet
`connect_to_device` still returns the established session, and the run
loop then starts streaming (notifications are set up and the streaming
status is reported). -/
theorem c8_port_failure_does_not_abort (s p : String) (env : ConnectEnv)
    (d : Device)
    (hscan : (scanLoop s 0 (env.scans.take 3)).2 = some d)
    (hconn : env.connectOk = true)
    (hp : p.isEmpty = false)
    (hport : env.portOpenOk = false) :
    (connect_to_device s (some p) env).2 = some d ∧
    "❌ 无法打开MIDI端口，但BLE连接已建立" ∈ (connect_to_device s (some p) env).1 ∧
    (runStartStreaming (connect_to_device s (some p) env)).1 = true ∧
    "🎹 MIDI转发已启动，开始接收数据..." ∈
      (runStartStreaming (connect_to_device s (some p) env)).2 := by
  have hsp : scanLoop s 0 (env.scans.take 3) =
      ((scanLoop s 0 (env.scans.take 3)).1, some d) := by
    rw [← hscan]
  unfold connect_to_device
  rw [hsp]
  simp [hconn, hp, hport, runStartStreaming]

/-- Concrete transport environment for the C8 witness: one scan attempt
finds the device, the connection succeeds, the port open fails. -/
def c8Env : ConnectEnv :=
  ⟨[ScanOutcome.devices [⟨some "FP-18", "AA:BB"⟩]], true, "", false⟩

/-- Witness for C8 at a concrete input. -/
theorem c8_witness :
    (connect_to_device "fp" (some "loopMIDI") c8Env).2 =
      some ⟨some "FP-18", "AA:BB"⟩ ∧
    "❌ 无法打开MIDI端口，但BLE连接已建立" ∈
      (connect_to_device "fp" (some "loopMIDI") c8Env).1 ∧
    (runStartStreaming (connect_to_device "fp" (some "loopMIDI") c8Env)).1 = true ∧
    "🎹 MIDI转发已启动，开始接收数据..." ∈
      (runStartStreaming (connect_to_device "fp" (some "loopMIDI") c8Env)).2 :=
  c8_port_failure_does_not_abort "fp" "loopMIDI" c8Env ⟨some "FP-18", "AA:BB"⟩
    rfl rfl rfl rfl

end BleMidi
